import Mathlib

/-!
Shallow embedding of `src/app.py`, a FastAPI relay ("LLaVA Local Client") that
forwards image requests to a remote Colab server and maps transport failures to
HTTP error responses.

Modelling choices:
* An inbound upload is its filename, declared content type and raw bytes.
  `content_type` is an `Option String`: FastAPI exposes a missing declared
  content type as Python `None`.
* One outbound HTTP round trip is abstracted by `TransportOutcome`: the
  `requests` call either raises `ConnectionError`, raises `Timeout`, or yields
  a response carrying the final status code, the raw body text, and the result
  of `response.json()` (`none` when the body is not JSON-decodable, in which
  case `.json()` raises `requests.exceptions.JSONDecodeError`).
* A handler returns a `HandlerResult` (either a JSON body served with status
  200, or a raised `fastapi.HTTPException`) together with the list of outbound
  requests it issued, so that "no upstream call was made" is expressible.
* Python exception flow is translated faithfully.  In particular, in the three
  POST handlers the `raise HTTPException(status_code=400, ...)` for a bad
  content type happens inside the `try` block, and `fastapi.HTTPException` is a
  subclass of `Exception`, so the trailing `except Exception as e` clause of the
  same `try` statement catches it and re-raises it as a 500 whose detail embeds
  `str(e)` (starlette formats that as "status_code: detail").  Exceptions
  raised inside the `except` clauses themselves (503/504/status passthrough)
  propagate to the framework unchanged.
* `response.raise_for_status()` raises `requests.exceptions.HTTPError` exactly
  when `400 <= status_code < 600` (statuses below 400 do not raise).
-/

namespace LlavaRelay

/-- JSON values, the shape of decoded request/response bodies. -/
inductive Json where
  | null
  | bool (b : Bool)
  | num (n : Int)
  | str (s : String)
  | arr (elems : List Json)
  | obj (fields : List (String × Json))

/-- The configured upstream base URL (module-level constant in `app.py`). -/
def COLAB_SERVER_URL : String :=
  "https://kenna-explosible-nonmonistically.ngrok-free.dev"

/-- An uploaded multipart file as FastAPI presents it to a handler. -/
structure UploadFile where
  filename : Option String
  content_type : Option String
  content : List Nat

/-- One file part of an outbound multipart payload:
`(file.filename, file_content, file.content_type)` in the source. -/
structure FilePart where
  filename : Option String
  content : List Nat
  contentType : Option String

/-- An outbound HTTP request issued by the relay via `requests`. -/
structure OutboundRequest where
  url : String
  fileParts : List (String × FilePart)
  dataParts : List (String × String)
  timeoutSeconds : Nat

/-- Abstraction of one outbound round trip: the `requests` call raises
`ConnectionError`, raises `Timeout`, or returns a response with a status code,
raw body text, and the JSON decoding of the body (when it decodes). -/
inductive TransportOutcome where
  | connectionError
  | timeout
  | response (status_code : Nat) (text : String) (jsonBody : Option Json)

/-- A raised `fastapi.HTTPException`. -/
structure HTTPExceptionModel where
  status_code : Nat
  detail : String

/-- What a handler produces for its caller: a JSON body served with HTTP 200,
or an `HTTPException` turned into an error response by the framework. -/
inductive HandlerResult where
  | ok (body : Json)
  | err (e : HTTPExceptionModel)

/-- HTTP status the caller observes (FastAPI serves a returned dict as 200). -/
def HandlerResult.status : HandlerResult → Nat
  | .ok _ => 200
  | .err e => e.status_code

/-- Detail string of the error, or `none` on success. -/
def HandlerResult.detail : HandlerResult → Option String
  | .ok _ => none
  | .err e => some e.detail

/-- Look up a top-level field of a successful JSON-object response. -/
def HandlerResult.bodyLookup : HandlerResult → String → Option Json
  | .ok (.obj fields), k => fields.lookup k
  | _, _ => none

/-- Python `s.startswith(pre)`. -/
def pyStartsWith (s pre : String) : Bool :=
  pre.data.isPrefixOf s.data

/-- Default of the `prompt` form field of `/v1/analyze`. -/
def analyzeDefaultPrompt : String :=
  "Describe this image in one concise sentence."

/-- Detail of the 503 raised on `requests.exceptions.ConnectionError`. -/
def connectionErrorDetail : String :=
  "Cannot connect to Colab server at " ++ COLAB_SERVER_URL ++
  ". Make sure the server is running and COLAB_SERVER_URL is correct."

/-- Detail of the 504 raised on `requests.exceptions.Timeout`. -/
def timeoutDetail : String :=
  "Request to Colab server timed out. The model might be loading."

/-- `str(e)` for the `AttributeError` raised by `None.startswith(...)` when an
upload carries no declared content type. -/
def noneStartswithError : String :=
  "\x27NoneType\x27 object has no attribute \x27startswith\x27"

/-- `str(e)` for a `requests.exceptions.JSONDecodeError`; the concrete text
depends on the body, modelled by a fixed representative since no handler logic
inspects it. -/
def jsonDecodeErrorStr : String :=
  "Expecting value: line 1 column 1 (char 0)"

/-- `str(e)` for the `RequestException` swallowed by the health check; the
concrete text is produced by the `requests` library and is modelled by a fixed
representative per failure mode since no handler logic inspects it. -/
def requestExceptionStr : TransportOutcome → String
  | .connectionError => "Connection refused by " ++ COLAB_SERVER_URL
  | .timeout => "Read timed out. (read timeout=5)"
  | .response _ _ _ => jsonDecodeErrorStr

/-- Hint string in the health-check disconnected branch. -/
def healthHint : String :=
  "Make sure to update COLAB_SERVER_URL with your ngrok URL"

/-- Lines 100-128 of the source, shared verbatim by the three POST handlers:
`raise_for_status`, JSON decoding, and the `except` clauses mapping
`ConnectionError` to 503, `Timeout` to 504, `HTTPError` to a passthrough of the
upstream status with the raw body text, and any other exception to 500. -/
def relayForward (u : TransportOutcome) : HandlerResult :=
  match u with
  | .connectionError => .err ⟨503, connectionErrorDetail⟩
  | .timeout => .err ⟨504, timeoutDetail⟩
  | .response s text jsonBody =>
    if 400 ≤ s ∧ s < 600 then
      .err ⟨s, "Colab server error: " ++ text⟩
    else
      match jsonBody with
      | some j => .ok j
      | none => .err ⟨500, "Error processing request: " ++ jsonDecodeErrorStr⟩

/-- `GET /` (`root` in the source): static metadata, no outbound request. -/
def root : HandlerResult × List OutboundRequest :=
  (.ok (.obj [
    ("message", .str "LLaVA Local Client"),
    ("status", .str "running"),
    ("colab_server", .str COLAB_SERVER_URL),
    ("endpoints", .obj [
      ("analyze", .str "/v1/analyze"),
      ("embed", .str "/v1/embed"),
      ("cosine_sim", .str "/v1/cosine-sim"),
      ("health", .str "/health")])]), [])

/-- `GET /health` (`health_check` in the source): probes the upstream
`/health` with a 5 second timeout; every `requests.exceptions.RequestException`
(connection error, timeout, and `JSONDecodeError` from `response.json()`) is
swallowed into a "disconnected" 200 body.  No `raise_for_status` is called, so
any JSON-decodable response, whatever its status, yields "connected". -/
def health_check (u : TransportOutcome) : HandlerResult × List OutboundRequest :=
  let req : OutboundRequest :=
    { url := COLAB_SERVER_URL ++ "/health"
      fileParts := []
      dataParts := []
      timeoutSeconds := 5 }
  match u with
  | .response _ _ (some colab_health) =>
    (.ok (.obj [
      ("local_status", .str "healthy"),
      ("colab_status", .str "connected"),
      ("colab_details", colab_health)]), [req])
  | .response s t none =>
    (.ok (.obj [
      ("local_status", .str "healthy"),
      ("colab_status", .str "disconnected"),
      ("error", .str (requestExceptionStr (.response s t none))),
      ("message", .str healthHint)]), [req])
  | .connectionError =>
    (.ok (.obj [
      ("local_status", .str "healthy"),
      ("colab_status", .str "disconnected"),
      ("error", .str (requestExceptionStr .connectionError)),
      ("message", .str healthHint)]), [req])
  | .timeout =>
    (.ok (.obj [
      ("local_status", .str "healthy"),
      ("colab_status", .str "disconnected"),
      ("error", .str (requestExceptionStr .timeout)),
      ("message", .str healthHint)]), [req])

/-- `POST /v1/analyze` (`analyze_image` in the source).  An absent content type
makes `file.content_type.startswith` raise `AttributeError`, caught by the
trailing `except Exception` clause (500); a declared non-image content type
raises `HTTPException(400)` inside the `try`, likewise caught and re-raised as
500.  Otherwise the file and prompt are forwarded and the outcome mapped by
`relayForward`. -/
def analyze_image (file : UploadFile) (prompt : Option String)
    (u : TransportOutcome) : HandlerResult × List OutboundRequest :=
  let prompt := prompt.getD analyzeDefaultPrompt
  match file.content_type with
  | none =>
    (.err ⟨500, "Error processing request: " ++ noneStartswithError⟩, [])
  | some ct =>
    if pyStartsWith ct "image/" = false then
      (.err ⟨500, "Error processing request: 400: File must be an image"⟩, [])
    else
      let req : OutboundRequest :=
        { url := COLAB_SERVER_URL ++ "/v1/analyze"
          fileParts := [("file",
            { filename := file.filename
              content := file.content
              contentType := file.content_type })]
          dataParts := [("prompt", prompt)]
          timeoutSeconds := 60 }
      (relayForward u, [req])

/-- `POST /v1/embed` (`embed_image` in the source): same validation and
forwarding pattern as `analyze_image`, without the prompt field. -/
def embed_image (file : UploadFile) (u : TransportOutcome) :
    HandlerResult × List OutboundRequest :=
  match file.content_type with
  | none =>
    (.err ⟨500, "Error processing request: " ++ noneStartswithError⟩, [])
  | some ct =>
    if pyStartsWith ct "image/" = false then
      (.err ⟨500, "Error processing request: 400: File must be an image"⟩, [])
    else
      let req : OutboundRequest :=
        { url := COLAB_SERVER_URL ++ "/v1/embed"
          fileParts := [("file",
            { filename := file.filename
              content := file.content
              contentType := file.content_type })]
          dataParts := []
          timeoutSeconds := 60 }
      (relayForward u, [req])

/-- `POST /v1/cosine-sim` (`calculate_cosine_similarity` in the source):
validates `file1` then `file2` (the same try/except shadowing applies to both
checks), then forwards the two file parts. -/
def calculate_cosine_similarity (file1 file2 : UploadFile)
    (u : TransportOutcome) : HandlerResult × List OutboundRequest :=
  match file1.content_type with
  | none =>
    (.err ⟨500, "Error processing request: " ++ noneStartswithError⟩, [])
  | some ct1 =>
    if pyStartsWith ct1 "image/" = false then
      (.err ⟨500, "Error processing request: 400: File1 must be an image"⟩, [])
    else
      match file2.content_type with
      | none =>
        (.err ⟨500, "Error processing request: " ++ noneStartswithError⟩, [])
      | some ct2 =>
        if pyStartsWith ct2 "image/" = false then
          (.err ⟨500, "Error processing request: 400: File2 must be an image"⟩, [])
        else
          let req : OutboundRequest :=
            { url := COLAB_SERVER_URL ++ "/v1/cosine-sim"
              fileParts := [
                ("file1",
                  { filename := file1.filename
                    content := file1.content
                    contentType := file1.content_type }),
                ("file2",
                  { filename := file2.filename
                    content := file2.content
                    contentType := file2.content_type })]
              dataParts := []
              timeoutSeconds := 60 }
          (relayForward u, [req])

/-- An upload failing the handlers' declared-content-type validation: the
content type is absent, or it does not start with "image/". -/
def invalidUpload (f : UploadFile) : Bool :=
  match f.content_type with
  | none => true
  | some ct => !(pyStartsWith ct "image/")

theorem invalidUpload_iff (f : UploadFile) :
    invalidUpload f = true ↔
      f.content_type = none ∨
        ∃ ct, f.content_type = some ct ∧ pyStartsWith ct "image/" = false := by
  rcases hct : f.content_type with _ | ct <;> simp [invalidUpload, hct]

/-- C1: a declared non-image content type does NOT produce the claimed 400.
The handler raises `HTTPException(status_code=400, ...)` inside its `try`
block, and the trailing `except Exception as e` clause of the same statement
catches it (`fastapi.HTTPException` subclasses `Exception`) and re-raises it
as a 500 whose detail wraps `str(e)`.  Evaluated here for a "text/plain"
upload on each endpoint: Analyze and Embed answer 500, and Cosine-Sim with a
valid `file1` and a "text/plain" `file2` answers 500 as well. -/
theorem claim_C1_nonimage_content_type_yields_500 :
    (analyze_image ⟨some "a.txt", some "text/plain", [0]⟩ none
        (.response 200 "ok" (some .null))).fst
      = .err ⟨500, "Error processing request: 400: File must be an image"⟩
    ∧ (embed_image ⟨some "a.txt", some "text/plain", [0]⟩
        (.response 200 "ok" (some .null))).fst
      = .err ⟨500, "Error processing request: 400: File must be an image"⟩
    ∧ (calculate_cosine_similarity ⟨some "a.png", some "image/png", [1]⟩
        ⟨some "b.txt", some "text/plain", [0]⟩
        (.response 200 "ok" (some .null))).fst
      = .err ⟨500, "Error processing request: 400: File2 must be an image"⟩ :=
  ⟨rfl, rfl, rfl⟩

/-- C2: for a valid image upload whose forwarded call yields a 2xx response
with a JSON-decodable body, each of Analyze, Embed and Cosine-Sim returns
exactly the upstream's decoded JSON body. -/
theorem claim_C2_success_body_verbatim (f f1 f2 : UploadFile)
    (p : Option String) (ct ct1 ct2 : String) (s : Nat) (t : String) (j : Json)
    (hf : f.content_type = some ct) (hv : pyStartsWith ct "image/" = true)
    (h1 : f1.content_type = some ct1) (hv1 : pyStartsWith ct1 "image/" = true)
    (h2 : f2.content_type = some ct2) (hv2 : pyStartsWith ct2 "image/" = true)
    (hs : 200 ≤ s) (hs2 : s < 300) :
    (analyze_image f p (.response s t (some j))).fst = .ok j
    ∧ (embed_image f (.response s t (some j))).fst = .ok j
    ∧ (calculate_cosine_similarity f1 f2 (.response s t (some j))).fst = .ok j := by
  have hns : ¬ (400 ≤ s ∧ s < 600) := by omega
  refine ⟨?_, ?_, ?_⟩ <;>
    simp [analyze_image, embed_image, calculate_cosine_similarity, relayForward,
      hf, hv, h1, hv1, h2, hv2, hns]

theorem claim_C2_success_body_verbatim_witness :
    (analyze_image ⟨some "a.png", some "image/png", [0]⟩ none
        (.response 200 "" (some .null))).fst = .ok .null
    ∧ (embed_image ⟨some "a.png", some "image/png", [0]⟩
        (.response 200 "" (some .null))).fst = .ok .null
    ∧ (calculate_cosine_similarity ⟨some "a.png", some "image/png", [0]⟩
        ⟨some "b.jpg", some "image/jpeg", [1]⟩
        (.response 200 "" (some .null))).fst = .ok .null :=
  claim_C2_success_body_verbatim
    ⟨some "a.png", some "image/png", [0]⟩
    ⟨some "a.png", some "image/png", [0]⟩
    ⟨some "b.jpg", some "image/jpeg", [1]⟩
    none "image/png" "image/png" "image/jpeg" 200 "" .null
    rfl rfl rfl rfl rfl rfl (by decide) (by decide)

/-- C3 counterexample: an upstream status of 300 is not 2xx, yet
`raise_for_status` only raises for statuses in [400, 600), so with a
JSON-decodable body the relay returns the decoded body with status 200 instead
of passing 300 through (and no message carries the upstream body text). -/
theorem claim_C3_status_300_not_passed_through :
    ¬ (200 ≤ 300 ∧ 300 < 300)
    ∧ (analyze_image ⟨some "a.png", some "image/png", [0]⟩ none
        (.response 300 "multiple choices body" (some (.str "ok")))).fst.status = 200
    ∧ (analyze_image ⟨some "a.png", some "image/png", [0]⟩ none
        (.response 300 "multiple choices body" (some (.str "ok")))).fst.status ≠ 300 :=
  ⟨by decide, rfl, by decide⟩

/-- C3 (amended): for a valid image upload, when the upstream responds with a
4xx or 5xx status — the statuses for which `raise_for_status` raises — each of
Analyze, Embed and Cosine-Sim returns that same status code with a message
embedding the upstream's raw body text. -/
theorem claim_C3_error_status_passthrough (f f1 f2 : UploadFile)
    (p : Option String) (ct ct1 ct2 : String) (s : Nat) (t : String)
    (jb : Option Json)
    (hf : f.content_type = some ct) (hv : pyStartsWith ct "image/" = true)
    (h1 : f1.content_type = some ct1) (hv1 : pyStartsWith ct1 "image/" = true)
    (h2 : f2.content_type = some ct2) (hv2 : pyStartsWith ct2 "image/" = true)
    (hs : 400 ≤ s) (hs2 : s < 600) :
    (analyze_image f p (.response s t jb)).fst
      = .err ⟨s, "Colab server error: " ++ t⟩
    ∧ (embed_image f (.response s t jb)).fst
      = .err ⟨s, "Colab server error: " ++ t⟩
    ∧ (calculate_cosine_similarity f1 f2 (.response s t jb)).fst
      = .err ⟨s, "Colab server error: " ++ t⟩ := by
  refine ⟨?_, ?_, ?_⟩ <;>
    simp [analyze_image, embed_image, calculate_cosine_similarity, relayForward,
      hf, hv, h1, hv1, h2, hv2, hs, hs2]

theorem claim_C3_error_status_passthrough_witness :
    (analyze_image ⟨some "a.png", some "image/png", [0]⟩ none
        (.response 502 "bad gateway" none)).fst
      = .err ⟨502, "Colab server error: " ++ "bad gateway"⟩
    ∧ (embed_image ⟨some "a.png", some "image/png", [0]⟩
        (.response 502 "bad gateway" none)).fst
      = .err ⟨502, "Colab server error: " ++ "bad gateway"⟩
    ∧ (calculate_cosine_similarity ⟨some "a.png", some "image/png", [0]⟩
        ⟨some "b.jpg", some "image/jpeg", [1]⟩
        (.response 502 "bad gateway" none)).fst
      = .err ⟨502, "Colab server error: " ++ "bad gateway"⟩ :=
  claim_C3_error_status_passthrough
    ⟨some "a.png", some "image/png", [0]⟩
    ⟨some "a.png", some "image/png", [0]⟩
    ⟨some "b.jpg", some "image/jpeg", [1]⟩
    none "image/png" "image/png" "image/jpeg" 502 "bad gateway" none
    rfl rfl rfl rfl rfl rfl (by decide) (by decide)

/-- C4: the health check never surfaces an error status: for every transport
outcome it answers 200 with `local_status` "healthy"; on a JSON-decodable
upstream reply `colab_status` is "connected" and `colab_details` is the
decoded body, and on any transport failure (connection error, timeout, or
undecodable body) `colab_status` is "disconnected" with diagnostic `error`
and `message` fields. -/
theorem claim_C4_health_never_errors (u : TransportOutcome) :
    (health_check u).fst.status = 200
    ∧ (health_check u).fst.bodyLookup "local_status" = some (.str "healthy")
    ∧ (match u with
       | .response _ _ (some j) =>
         (health_check u).fst.bodyLookup "colab_status" = some (.str "connected")
         ∧ (health_check u).fst.bodyLookup "colab_details" = some j
       | _ =>
         (health_check u).fst.bodyLookup "colab_status" = some (.str "disconnected")
         ∧ ((health_check u).fst.bodyLookup "error").isSome = true
         ∧ ((health_check u).fst.bodyLookup "message").isSome = true) := by
  rcases u with _ | _ | ⟨s, t, _ | j⟩ <;>
    first
      | exact ⟨rfl, rfl, rfl, rfl⟩
      | exact ⟨rfl, rfl, rfl, rfl, rfl⟩

/-- C5: for a valid image upload, when the forwarded call raises a connection
error, each of Analyze, Embed and Cosine-Sim returns a 503 with the
upstream-unreachable detail. -/
theorem claim_C5_connection_error_503 (f f1 f2 : UploadFile)
    (p : Option String) (ct ct1 ct2 : String)
    (hf : f.content_type = some ct) (hv : pyStartsWith ct "image/" = true)
    (h1 : f1.content_type = some ct1) (hv1 : pyStartsWith ct1 "image/" = true)
    (h2 : f2.content_type = some ct2) (hv2 : pyStartsWith ct2 "image/" = true) :
    (analyze_image f p .connectionError).fst = .err ⟨503, connectionErrorDetail⟩
    ∧ (embed_image f .connectionError).fst = .err ⟨503, connectionErrorDetail⟩
    ∧ (calculate_cosine_similarity f1 f2 .connectionError).fst
      = .err ⟨503, connectionErrorDetail⟩ := by
  refine ⟨?_, ?_, ?_⟩ <;>
    simp [analyze_image, embed_image, calculate_cosine_similarity, relayForward,
      hf, hv, h1, hv1, h2, hv2]

theorem claim_C5_connection_error_503_witness :
    (analyze_image ⟨some "a.png", some "image/png", [0]⟩ none
        .connectionError).fst = .err ⟨503, connectionErrorDetail⟩
    ∧ (embed_image ⟨some "a.png", some "image/png", [0]⟩
        .connectionError).fst = .err ⟨503, connectionErrorDetail⟩
    ∧ (calculate_cosine_similarity ⟨some "a.png", some "image/png", [0]⟩
        ⟨some "b.jpg", some "image/jpeg", [1]⟩
        .connectionError).fst = .err ⟨503, connectionErrorDetail⟩ :=
  claim_C5_connection_error_503
    ⟨some "a.png", some "image/png", [0]⟩
    ⟨some "a.png", some "image/png", [0]⟩
    ⟨some "b.jpg", some "image/jpeg", [1]⟩
    none "image/png" "image/png" "image/jpeg"
    rfl rfl rfl rfl rfl rfl

/-- C6: for a valid image upload, when the forwarded call times out, each of
Analyze, Embed and Cosine-Sim returns a 504 with the timeout detail, and the
outbound request that timed out carried the configured 60-second budget. -/
theorem claim_C6_timeout_504 (f f1 f2 : UploadFile)
    (p : Option String) (ct ct1 ct2 : String)
    (hf : f.content_type = some ct) (hv : pyStartsWith ct "image/" = true)
    (h1 : f1.content_type = some ct1) (hv1 : pyStartsWith ct1 "image/" = true)
    (h2 : f2.content_type = some ct2) (hv2 : pyStartsWith ct2 "image/" = true) :
    (analyze_image f p .timeout).fst = .err ⟨504, timeoutDetail⟩
    ∧ ((analyze_image f p .timeout).snd.all
        (fun r => r.timeoutSeconds == 60)) = true
    ∧ (embed_image f .timeout).fst = .err ⟨504, timeoutDetail⟩
    ∧ ((embed_image f .timeout).snd.all
        (fun r => r.timeoutSeconds == 60)) = true
    ∧ (calculate_cosine_similarity f1 f2 .timeout).fst = .err ⟨504, timeoutDetail⟩
    ∧ ((calculate_cosine_similarity f1 f2 .timeout).snd.all
        (fun r => r.timeoutSeconds == 60)) = true := by
  refine ⟨?_, ?_, ?_, ?_, ?_, ?_⟩ <;>
    simp [analyze_image, embed_image, calculate_cosine_similarity, relayForward,
      hf, hv, h1, hv1, h2, hv2]

theorem claim_C6_timeout_504_witness :
    (analyze_image ⟨some "a.png", some "image/png", [0]⟩ none
        .timeout).fst = .err ⟨504, timeoutDetail⟩
    ∧ ((analyze_image ⟨some "a.png", some "image/png", [0]⟩ none
        .timeout).snd.all (fun r => r.timeoutSeconds == 60)) = true
    ∧ (embed_image ⟨some "a.png", some "image/png", [0]⟩
        .timeout).fst = .err ⟨504, timeoutDetail⟩
    ∧ ((embed_image ⟨some "a.png", some "image/png", [0]⟩
        .timeout).snd.all (fun r => r.timeoutSeconds == 60)) = true
    ∧ (calculate_cosine_similarity ⟨some "a.png", some "image/png", [0]⟩
        ⟨some "b.jpg", some "image/jpeg", [1]⟩
        .timeout).fst = .err ⟨504, timeoutDetail⟩
    ∧ ((calculate_cosine_similarity ⟨some "a.png", some "image/png", [0]⟩
        ⟨some "b.jpg", some "image/jpeg", [1]⟩
        .timeout).snd.all (fun r => r.timeoutSeconds == 60)) = true :=
  claim_C6_timeout_504
    ⟨some "a.png", some "image/png", [0]⟩
    ⟨some "a.png", some "image/png", [0]⟩
    ⟨some "b.jpg", some "image/jpeg", [1]⟩
    none "image/png" "image/png" "image/jpeg"
    rfl rfl rfl rfl rfl rfl

/-- C7: on Analyze, omitting the prompt form field and supplying the literal
default prompt string produce identical results and identical outbound
request payloads, for every file and every transport outcome. -/
theorem claim_C7_prompt_default_equiv (f : UploadFile) (u : TransportOutcome) :
    analyze_image f none u = analyze_image f (some analyzeDefaultPrompt) u :=
  rfl

/-- C8: the Info endpoint issues no outbound request, answers 200, and its
body carries the static service metadata: name, running status, the
configured upstream base URL, and the exposed endpoint paths. -/
theorem claim_C8_root_static_metadata :
    root.snd = []
    ∧ root.fst.status = 200
    ∧ root.fst.bodyLookup "message" = some (.str "LLaVA Local Client")
    ∧ root.fst.bodyLookup "status" = some (.str "running")
    ∧ root.fst.bodyLookup "colab_server" = some (.str COLAB_SERVER_URL)
    ∧ root.fst.bodyLookup "endpoints" = some (.obj [
        ("analyze", .str "/v1/analyze"),
        ("embed", .str "/v1/embed"),
        ("cosine_sim", .str "/v1/cosine-sim"),
        ("health", .str "/health")]) :=
  ⟨rfl, rfl, rfl, rfl, rfl, rfl⟩

/-- C9: when content-type validation fails — the content type is absent or is
not an "image/" type — no outbound request is issued: Analyze, Embed, and
Cosine-Sim (with either file invalid) all leave the outbound trace empty. -/
theorem claim_C9_no_upstream_call_on_invalid (f f1 f2 : UploadFile)
    (p : Option String) (u : TransportOutcome)
    (h : invalidUpload f = true)
    (h12 : invalidUpload f1 = true ∨ invalidUpload f2 = true) :
    (analyze_image f p u).snd = []
    ∧ (embed_image f u).snd = []
    ∧ (calculate_cosine_similarity f1 f2 u).snd = [] := by
  have hA : (analyze_image f p u).snd = [] := by
    rcases (invalidUpload_iff f).mp h with hn | ⟨ct, hct, hb⟩
    · simp [analyze_image, hn]
    · simp [analyze_image, hct, hb]
  have hB : (embed_image f u).snd = [] := by
    rcases (invalidUpload_iff f).mp h with hn | ⟨ct, hct, hb⟩
    · simp [embed_image, hn]
    · simp [embed_image, hct, hb]
  have hC : (calculate_cosine_similarity f1 f2 u).snd = [] := by
    rcases h12 with hx | hx
    · rcases (invalidUpload_iff f1).mp hx with hn | ⟨ct, hct, hb⟩
      · simp [calculate_cosine_similarity, hn]
      · simp [calculate_cosine_similarity, hct, hb]
    · rcases hct1 : f1.content_type with _ | ct1
      · simp [calculate_cosine_similarity, hct1]
      · rcases hb1 : pyStartsWith ct1 "image/" with _ | _
        · simp [calculate_cosine_similarity, hct1, hb1]
        · rcases (invalidUpload_iff f2).mp hx with hn | ⟨ct, hct, hb⟩
          · simp [calculate_cosine_similarity, hct1, hb1, hn]
          · simp [calculate_cosine_similarity, hct1, hb1, hct, hb]
  exact ⟨hA, hB, hC⟩

theorem claim_C9_no_upstream_call_on_invalid_witness :
    (analyze_image ⟨some "a.txt", some "text/plain", [0]⟩ none .timeout).snd = []
    ∧ (embed_image ⟨some "a.txt", some "text/plain", [0]⟩ .timeout).snd = []
    ∧ (calculate_cosine_similarity ⟨some "a.png", some "image/png", [1]⟩
        ⟨some "b.txt", some "text/plain", [0]⟩ .timeout).snd = [] :=
  claim_C9_no_upstream_call_on_invalid
    ⟨some "a.txt", some "text/plain", [0]⟩
    ⟨some "a.png", some "image/png", [1]⟩
    ⟨some "b.txt", some "text/plain", [0]⟩
    none .timeout (by decide) (Or.inr (by decide))

/-- C10: an upload with no declared content type at all makes
`file.content_type.startswith` raise `AttributeError`, which the catch-all
`except Exception` clause maps to a 500, not a 400 — on Analyze, on Embed,
and on Cosine-Sim whether the type-less file arrives first or second. -/
theorem claim_C10_missing_content_type_500 (f f2 g : UploadFile)
    (p : Option String) (u : TransportOutcome) (ct : String)
    (hf : f.content_type = none)
    (hg : g.content_type = some ct) (hv : pyStartsWith ct "image/" = true) :
    (analyze_image f p u).fst.status = 500
    ∧ (embed_image f u).fst.status = 500
    ∧ (calculate_cosine_similarity f f2 u).fst.status = 500
    ∧ (calculate_cosine_similarity g f u).fst.status = 500 := by
  refine ⟨?_, ?_, ?_, ?_⟩ <;>
    simp [analyze_image, embed_image, calculate_cosine_similarity,
      HandlerResult.status, hf, hg, hv]

theorem claim_C10_missing_content_type_500_witness :
    (analyze_image ⟨some "a.bin", none, [0]⟩ none .timeout).fst.status = 500
    ∧ (embed_image ⟨some "a.bin", none, [0]⟩ .timeout).fst.status = 500
    ∧ (calculate_cosine_similarity ⟨some "a.bin", none, [0]⟩
        ⟨some "b.png", some "image/png", [1]⟩ .timeout).fst.status = 500
    ∧ (calculate_cosine_similarity ⟨some "b.png", some "image/png", [1]⟩
        ⟨some "a.bin", none, [0]⟩ .timeout).fst.status = 500 :=
  claim_C10_missing_content_type_500
    ⟨some "a.bin", none, [0]⟩
    ⟨some "b.png", some "image/png", [1]⟩
    ⟨some "b.png", some "image/png", [1]⟩
    none .timeout "image/png" rfl rfl rfl

end LlavaRelay
